import Mathlib

/-!
Verification of the Cove home-automation hub core, against the Rust sources.

The definitions below are shallow embeddings of the corresponding Rust
functions, crate by crate:

* `Esphome` — `crates/esphome/src/protocol.rs`: the varint and frame codec
  (`encode_varuint`, `decode_varuint`, `ESPHomeCodec::encode/decode`), the
  `ESPHomeProtocolClient` pending-response table and `send_and_receive`.
* `SystemSvc` — `crates/types/src/system_service.rs`: `ServiceHandle`
  `start`/`stop` lifecycle, modelled as explicit state plus an action trace.
* `Registry` — `crates/registry/src/lib.rs`: the bus-event handler of
  `RegistryService::run`.
* `Mdns` — `crates/discovery/src/protocol/mdns.rs`:
  `MdnsProtocol::handle_mdns_event`.
* `Core` — `crates/core/src/main.rs`: `System::start` / `System::stop`
  service ordering.

Bytes are modelled as `Nat` (values `< 256` where it matters), `u64`
arithmetic as `Nat` with explicit `% 2 ^ 64` where Rust truncates.
-/

namespace Esphome

/-- Embedding of `encode_varuint` (protocol.rs:398-410): unsigned LEB128,
low 7 bits first, MSB is the continuation bit.  The Rust argument is `u64`,
so callers pass values `< 2 ^ 64`. -/
def encode_varuint (v : Nat) : List Nat :=
  if v >>> 7 = 0 then [v &&& 127]
  else ((v &&& 127) ||| 128) :: encode_varuint (v >>> 7)
termination_by v
decreasing_by
  simp only [Nat.shiftRight_eq_div_pow] at *
  omega

/-- Loop of `decode_varuint` (protocol.rs:372-395): accumulates
`value |= (byte & 0x7F) << shift` in `u64` arithmetic (hence the `% 2 ^ 64`),
returns the value and the unconsumed bytes when a byte without the
continuation bit arrives, and returns `none` either on an exhausted buffer
(incomplete varint) or when `shift` would exceed 63 (varint too large —
the Rust code returns `None` for this case as well). -/
def decode_varuint_aux : List Nat → Nat → Nat → Option (Nat × List Nat)
  | [], _, _ => none
  | b :: rest, value, shift =>
    let value' := (value ||| ((b &&& 127) <<< shift)) % 2 ^ 64
    if b &&& 128 = 0 then some (value', rest)
    else if shift + 7 > 63 then none
    else decode_varuint_aux rest value' (shift + 7)

/-- Embedding of `decode_varuint` (protocol.rs:372-395).  On success the
returned list is the buffer after `advance(i)`; on `none` the Rust function
leaves the buffer untouched, which the frame decoder treats by restoring
the original buffer. -/
def decode_varuint (l : List Nat) : Option (Nat × List Nat) :=
  decode_varuint_aux l 0 0

theorem and_two_pow_eq_zero {x n : Nat} (h : x < 2 ^ n) : x &&& 2 ^ n = 0 := by
  apply Nat.eq_of_testBit_eq
  intro i
  simp only [Nat.testBit_and, Nat.testBit_two_pow, Nat.zero_testBit]
  rcases eq_or_ne n i with rfl | hne
  · simp [Nat.testBit_lt_two_pow h]
  · simp [hne]

theorem lor_disjoint_eq_add {a b k : Nat} (h : a < 2 ^ k) :
    a ||| (b <<< k) = a + b * 2 ^ k :=
  calc a ||| b <<< k = 2 ^ k * b ||| a := by rw [Nat.shiftLeft_eq, Nat.lor_comm, mul_comm]
    _ = 2 ^ k * b + a := (Nat.mul_add_lt_is_or h b).symm
    _ = a + b * 2 ^ k := by ring

theorem and_127_eq_mod (v : Nat) : v &&& 127 = v % 128 := by
  simpa using Nat.and_pow_two_sub_one_eq_mod v 7

theorem shiftRight_7_eq_div (v : Nat) : v >>> 7 = v / 128 := by
  rw [Nat.shiftRight_eq_div_pow]

theorem and_128_eq_zero {v : Nat} (h : v < 128) : v &&& 128 = 0 := by
  have h2 := and_two_pow_eq_zero (n := 7) (show v < 2 ^ 7 by omega)
  exact h2

theorem lor_128_eq_add {a : Nat} (h : a < 128) : a ||| 128 = a + 128 := by
  have h2 := lor_disjoint_eq_add (b := 1) (k := 7) (show a < 2 ^ 7 by omega)
  simp [Nat.shiftLeft_eq] at h2
  exact h2

theorem add_128_and_128 {a : Nat} (h : a < 128) : (a + 128) &&& 128 = 128 := by
  rw [← lor_128_eq_add h, Nat.and_comm _ 128, Nat.and_or_distrib_left]
  have h1 : 128 &&& a = 0 := by
    rw [Nat.and_comm]
    exact and_128_eq_zero h
  simp [h1]

theorem add_128_and_127 {a : Nat} (h : a < 128) : (a + 128) &&& 127 = a := by
  rw [and_127_eq_mod]
  omega

theorem encode_varuint_head_eq (v : Nat) (h : v >>> 7 ≠ 0) :
    encode_varuint v = ((v &&& 127) ||| 128) :: encode_varuint (v >>> 7) := by
  rw [encode_varuint]
  exact if_neg h

/-- LEB128 round-trip at a general accumulator/shift: decoding the encoding
of `v` appended to `rest` resumes with the bits of `v` placed above the
accumulated `value`. -/
theorem decode_varuint_aux_encode (v : Nat) (rest : List Nat) (value shift : Nat)
    (hs : shift ≤ 63) (hv : v < 2 ^ (64 - shift)) (hval : value < 2 ^ shift) :
    decode_varuint_aux (encode_varuint v ++ rest) value shift
      = some (value + v * 2 ^ shift, rest) := by
  by_cases h7 : v >>> 7 = 0
  · -- final byte: `v < 128`, continuation bit clear
    have hvlt : v < 128 := by
      rw [shiftRight_7_eq_div] at h7
      omega
    rw [encode_varuint, if_pos h7]
    simp only [List.cons_append, List.nil_append, decode_varuint_aux]
    have hv127 : v &&& 127 = v := by
      rw [and_127_eq_mod]
      omega
    have hlor : value ||| (v <<< shift) = value + v * 2 ^ shift :=
      lor_disjoint_eq_add hval
    have hbound : value + v * 2 ^ shift < 2 ^ 64 :=
      calc value + v * 2 ^ shift < 2 ^ shift + v * 2 ^ shift :=
            Nat.add_lt_add_right hval _
        _ = (v + 1) * 2 ^ shift := by ring
        _ ≤ 2 ^ (64 - shift) * 2 ^ shift := mul_le_mul_right' (by omega) _
        _ = 2 ^ 64 := by
            rw [← pow_add]
            congr 1
            omega
    rw [hv127, hv127, and_128_eq_zero hvlt, if_pos rfl, hlor, Nat.mod_eq_of_lt hbound]
    rfl
  · -- continuation byte: low 7 bits plus the 0x80 bit, then recurse
    have hv128 : 128 ≤ v := by
      by_contra hlt
      apply h7
      rw [shiftRight_7_eq_div]
      omega
    have hshift56 : shift ≤ 56 := by
      by_contra hgt
      have h1 : 64 - shift ≤ 7 := by omega
      have h2 : (2 : Nat) ^ (64 - shift) ≤ 2 ^ 7 :=
        Nat.pow_le_pow_right (by norm_num) h1
      norm_num at h2
      omega
    rw [encode_varuint_head_eq v h7]
    simp only [List.cons_append, decode_varuint_aux]
    have hmod : v &&& 127 < 128 := by
      rw [and_127_eq_mod]
      omega
    have hb : (v &&& 127) ||| 128 = (v &&& 127) + 128 := lor_128_eq_add hmod
    rw [hb, add_128_and_127 hmod, add_128_and_128 hmod]
    rw [if_neg (by norm_num), if_neg (by omega)]
    -- the new accumulator is below `2 ^ (shift + 7)`
    have hlor : value ||| ((v &&& 127) <<< shift) = value + (v &&& 127) * 2 ^ shift :=
      lor_disjoint_eq_add hval
    have hp7 : (2 : Nat) ^ (shift + 7) = 2 ^ shift * 128 := by
      rw [pow_add]
      norm_num
    have hacc : value + (v &&& 127) * 2 ^ shift < 2 ^ (shift + 7) :=
      calc value + (v &&& 127) * 2 ^ shift
          < 2 ^ shift + (v &&& 127) * 2 ^ shift := Nat.add_lt_add_right hval _
        _ = ((v &&& 127) + 1) * 2 ^ shift := by ring
        _ ≤ 128 * 2 ^ shift := mul_le_mul_right' (by omega) _
        _ = 2 ^ (shift + 7) := by rw [hp7, mul_comm]
    have haccle : value + (v &&& 127) * 2 ^ shift < 2 ^ 64 := by
      have h1 : (2 : Nat) ^ (shift + 7) ≤ 2 ^ 63 :=
        Nat.pow_le_pow_right (by norm_num) (by omega)
      have h2 : (2 : Nat) ^ 63 < 2 ^ 64 := by norm_num
      omega
    have hrec := decode_varuint_aux_encode (v >>> 7) rest
        (value + (v &&& 127) * 2 ^ shift) (shift + 7)
        (by omega)
        (by
          rw [shiftRight_7_eq_div]
          have h64 : 2 ^ (64 - shift) = 2 ^ (64 - (shift + 7)) * 128 := by
            have : (128 : Nat) = 2 ^ 7 := by norm_num
            rw [this, ← pow_add]
            congr 1
            omega
          rw [Nat.div_lt_iff_lt_mul (by norm_num : (0 : Nat) < 128)]
          omega)
        hacc
    simp only [hlor, Nat.mod_eq_of_lt haccle]
    have hfinal : value + (v &&& 127) * 2 ^ shift + (v >>> 7) * 2 ^ (shift + 7)
        = value + v * 2 ^ shift := by
      rw [and_127_eq_mod, shiftRight_7_eq_div, hp7]
      have hsplit : v % 128 + 128 * (v / 128) = v := Nat.mod_add_div v 128
      calc value + v % 128 * 2 ^ shift + v / 128 * (2 ^ shift * 128)
          = value + (v % 128 + 128 * (v / 128)) * 2 ^ shift := by ring
        _ = value + v * 2 ^ shift := by rw [hsplit]
    rw [hfinal] at hrec
    exact hrec
termination_by v
decreasing_by
  simp only [shiftRight_7_eq_div] at *
  omega

/-- Varint round-trip: decoding the encoding of any `u64` value, with any
trailing bytes, returns the value and leaves exactly the trailing bytes. -/
theorem decode_varuint_encode (v : Nat) (rest : List Nat) (hv : v < 2 ^ 64) :
    decode_varuint (encode_varuint v ++ rest) = some (v, rest) := by
  have := decode_varuint_aux_encode v rest 0 0 (by norm_num) (by simpa) (by norm_num)
  simpa [decode_varuint] using this

/-- Embedding of the `MessageType` enum.  Modelled from the spec: `proto.rs`
(the prost-generated module declared in `crates/esphome/src/lib.rs`) is not
under `src/`; the spec fixes the numeric message-type assignments to the peer
firmware schema (§6), and the constructor list and numbering below are exactly
the decoder table of `ESPHomeCodec::decode` (protocol.rs:198-328). -/
inductive MessageType
  | HelloRequest
  | HelloResponse
  | ConnectRequest
  | ConnectResponse
  | DisconnectRequest
  | DisconnectResponse
  | PingRequest
  | PingResponse
  | DeviceInfoRequest
  | DeviceInfoResponse
  | ListEntitiesRequest
  | ListEntitiesBinarySensorResponse
  | ListEntitiesCoverResponse
  | ListEntitiesFanResponse
  | ListEntitiesLightResponse
  | ListEntitiesSensorResponse
  | ListEntitiesSwitchResponse
  | ListEntitiesTextSensorResponse
  | ListEntitiesDoneResponse
  | SubscribeStatesRequest
  | BinarySensorStateResponse
  | CoverStateResponse
  | FanStateResponse
  | LightStateResponse
  | SensorStateResponse
  | SwitchStateResponse
  | TextSensorStateResponse
  | SubscribeLogsRequest
  | SubscribeLogsResponse
  | CoverCommandRequest
  | FanCommandRequest
  | LightCommandRequest
  | SwitchCommandRequest
  | SubscribeHomeassistantServicesRequest
  | HomeassistantServiceResponse
  | GetTimeRequest
  | GetTimeResponse
  | SubscribeHomeAssistantStatesRequest
  | SubscribeHomeAssistantStateResponse
  | HomeAssistantStateResponse
  | ListEntitiesServicesResponse
  | ExecuteServiceRequest
  | ListEntitiesCameraResponse
  | CameraImageResponse
  | CameraImageRequest
  | ListEntitiesClimateResponse
  | ClimateStateResponse
  | ClimateCommandRequest
  | ListEntitiesNumberResponse
  | NumberStateResponse
  | NumberCommandRequest
  | ListEntitiesSelectResponse
  | SelectStateResponse
  | SelectCommandRequest
  | ListEntitiesSirenResponse
  | SirenStateResponse
  | SirenCommandRequest
  | ListEntitiesLockResponse
  | LockStateResponse
  | LockCommandRequest
  | ListEntitiesButtonResponse
  | ButtonCommandRequest
  | ListEntitiesMediaPlayerResponse
  | MediaPlayerStateResponse
  | MediaPlayerCommandRequest
  | SubscribeBluetoothLEAdvertisementsRequest
  | BluetoothLEAdvertisementResponse
  | BluetoothDeviceRequest
  | BluetoothDeviceConnectionResponse
  | BluetoothGATTGetServicesRequest
  | BluetoothGATTGetServicesResponse
  | BluetoothGATTGetServicesDoneResponse
  | BluetoothGATTReadRequest
  | BluetoothGATTReadResponse
  | BluetoothGATTWriteRequest
  | BluetoothGATTReadDescriptorRequest
  | BluetoothGATTWriteDescriptorRequest
  | BluetoothGATTNotifyRequest
  | BluetoothGATTNotifyDataResponse
  | SubscribeBluetoothConnectionsFreeRequest
  | BluetoothConnectionsFreeResponse
  | BluetoothGATTErrorResponse
  | BluetoothGATTWriteResponse
  | BluetoothGATTNotifyResponse
  | BluetoothDevicePairingResponse
  | BluetoothDeviceUnpairingResponse
  | UnsubscribeBluetoothLEAdvertisementsRequest
  | BluetoothDeviceClearCacheResponse
  | SubscribeVoiceAssistantRequest
  | VoiceAssistantRequest
  | VoiceAssistantResponse
  | VoiceAssistantEventResponse
  | BluetoothLERawAdvertisementsResponse
  | ListEntitiesAlarmControlPanelResponse
  | AlarmControlPanelStateResponse
  | AlarmControlPanelCommandRequest
  | ListEntitiesTextResponse
  | TextStateResponse
  | TextCommandRequest
  | ListEntitiesDateResponse
  | DateStateResponse
  | DateCommandRequest
  | ListEntitiesTimeResponse
  | TimeStateResponse
  | TimeCommandRequest
  | VoiceAssistantAudio
  | ListEntitiesEventResponse
  | EventResponse
  | ListEntitiesValveResponse
  | ValveStateResponse
  | ValveCommandRequest
  | ListEntitiesDateTimeResponse
  | DateTimeStateResponse
  | DateTimeCommandRequest
  | VoiceAssistantTimerEventResponse
  | ListEntitiesUpdateResponse
  | UpdateStateResponse
  | UpdateCommandRequest
  | VoiceAssistantAnnounceRequest
  | VoiceAssistantAnnounceFinished
  | VoiceAssistantConfigurationRequest
  | VoiceAssistantConfigurationResponse
  | VoiceAssistantSetConfiguration
deriving DecidableEq, Repr

/-- Numeric value of a message type (`item.msg_type as u64` in
`ESPHomeCodec::encode`).  Modelled from the spec: the discriminants of the
generated enum follow the peer firmware schema, inverse of the decoder
table. -/
def MessageType.toNat : MessageType → Nat
  | .HelloRequest => 1
  | .HelloResponse => 2
  | .ConnectRequest => 3
  | .ConnectResponse => 4
  | .DisconnectRequest => 5
  | .DisconnectResponse => 6
  | .PingRequest => 7
  | .PingResponse => 8
  | .DeviceInfoRequest => 9
  | .DeviceInfoResponse => 10
  | .ListEntitiesRequest => 11
  | .ListEntitiesBinarySensorResponse => 12
  | .ListEntitiesCoverResponse => 13
  | .ListEntitiesFanResponse => 14
  | .ListEntitiesLightResponse => 15
  | .ListEntitiesSensorResponse => 16
  | .ListEntitiesSwitchResponse => 17
  | .ListEntitiesTextSensorResponse => 18
  | .ListEntitiesDoneResponse => 19
  | .SubscribeStatesRequest => 20
  | .BinarySensorStateResponse => 21
  | .CoverStateResponse => 22
  | .FanStateResponse => 23
  | .LightStateResponse => 24
  | .SensorStateResponse => 25
  | .SwitchStateResponse => 26
  | .TextSensorStateResponse => 27
  | .SubscribeLogsRequest => 28
  | .SubscribeLogsResponse => 29
  | .CoverCommandRequest => 30
  | .FanCommandRequest => 31
  | .LightCommandRequest => 32
  | .SwitchCommandRequest => 33
  | .SubscribeHomeassistantServicesRequest => 34
  | .HomeassistantServiceResponse => 35
  | .GetTimeRequest => 36
  | .GetTimeResponse => 37
  | .SubscribeHomeAssistantStatesRequest => 38
  | .SubscribeHomeAssistantStateResponse => 39
  | .HomeAssistantStateResponse => 40
  | .ListEntitiesServicesResponse => 41
  | .ExecuteServiceRequest => 42
  | .ListEntitiesCameraResponse => 43
  | .CameraImageResponse => 44
  | .CameraImageRequest => 45
  | .ListEntitiesClimateResponse => 46
  | .ClimateStateResponse => 47
  | .ClimateCommandRequest => 48
  | .ListEntitiesNumberResponse => 49
  | .NumberStateResponse => 50
  | .NumberCommandRequest => 51
  | .ListEntitiesSelectResponse => 52
  | .SelectStateResponse => 53
  | .SelectCommandRequest => 54
  | .ListEntitiesSirenResponse => 55
  | .SirenStateResponse => 56
  | .SirenCommandRequest => 57
  | .ListEntitiesLockResponse => 58
  | .LockStateResponse => 59
  | .LockCommandRequest => 60
  | .ListEntitiesButtonResponse => 61
  | .ButtonCommandRequest => 62
  | .ListEntitiesMediaPlayerResponse => 63
  | .MediaPlayerStateResponse => 64
  | .MediaPlayerCommandRequest => 65
  | .SubscribeBluetoothLEAdvertisementsRequest => 66
  | .BluetoothLEAdvertisementResponse => 67
  | .BluetoothDeviceRequest => 68
  | .BluetoothDeviceConnectionResponse => 69
  | .BluetoothGATTGetServicesRequest => 70
  | .BluetoothGATTGetServicesResponse => 71
  | .BluetoothGATTGetServicesDoneResponse => 72
  | .BluetoothGATTReadRequest => 73
  | .BluetoothGATTReadResponse => 74
  | .BluetoothGATTWriteRequest => 75
  | .BluetoothGATTReadDescriptorRequest => 76
  | .BluetoothGATTWriteDescriptorRequest => 77
  | .BluetoothGATTNotifyRequest => 78
  | .BluetoothGATTNotifyDataResponse => 79
  | .SubscribeBluetoothConnectionsFreeRequest => 80
  | .BluetoothConnectionsFreeResponse => 81
  | .BluetoothGATTErrorResponse => 82
  | .BluetoothGATTWriteResponse => 83
  | .BluetoothGATTNotifyResponse => 84
  | .BluetoothDevicePairingResponse => 85
  | .BluetoothDeviceUnpairingResponse => 86
  | .UnsubscribeBluetoothLEAdvertisementsRequest => 87
  | .BluetoothDeviceClearCacheResponse => 88
  | .SubscribeVoiceAssistantRequest => 89
  | .VoiceAssistantRequest => 90
  | .VoiceAssistantResponse => 91
  | .VoiceAssistantEventResponse => 92
  | .BluetoothLERawAdvertisementsResponse => 93
  | .ListEntitiesAlarmControlPanelResponse => 94
  | .AlarmControlPanelStateResponse => 95
  | .AlarmControlPanelCommandRequest => 96
  | .ListEntitiesTextResponse => 97
  | .TextStateResponse => 98
  | .TextCommandRequest => 99
  | .ListEntitiesDateResponse => 100
  | .DateStateResponse => 101
  | .DateCommandRequest => 102
  | .ListEntitiesTimeResponse => 103
  | .TimeStateResponse => 104
  | .TimeCommandRequest => 105
  | .VoiceAssistantAudio => 106
  | .ListEntitiesEventResponse => 107
  | .EventResponse => 108
  | .ListEntitiesValveResponse => 109
  | .ValveStateResponse => 110
  | .ValveCommandRequest => 111
  | .ListEntitiesDateTimeResponse => 112
  | .DateTimeStateResponse => 113
  | .DateTimeCommandRequest => 114
  | .VoiceAssistantTimerEventResponse => 115
  | .ListEntitiesUpdateResponse => 116
  | .UpdateStateResponse => 117
  | .UpdateCommandRequest => 118
  | .VoiceAssistantAnnounceRequest => 119
  | .VoiceAssistantAnnounceFinished => 120
  | .VoiceAssistantConfigurationRequest => 121
  | .VoiceAssistantConfigurationResponse => 122
  | .VoiceAssistantSetConfiguration => 123

/-- The decoder's message-type table (protocol.rs:198-328): numbers 1-123 map
to the known message types, anything else is unknown. -/
def MessageType.ofNum : Nat → Option MessageType
  | 1 => some .HelloRequest
  | 2 => some .HelloResponse
  | 3 => some .ConnectRequest
  | 4 => some .ConnectResponse
  | 5 => some .DisconnectRequest
  | 6 => some .DisconnectResponse
  | 7 => some .PingRequest
  | 8 => some .PingResponse
  | 9 => some .DeviceInfoRequest
  | 10 => some .DeviceInfoResponse
  | 11 => some .ListEntitiesRequest
  | 12 => some .ListEntitiesBinarySensorResponse
  | 13 => some .ListEntitiesCoverResponse
  | 14 => some .ListEntitiesFanResponse
  | 15 => some .ListEntitiesLightResponse
  | 16 => some .ListEntitiesSensorResponse
  | 17 => some .ListEntitiesSwitchResponse
  | 18 => some .ListEntitiesTextSensorResponse
  | 19 => some .ListEntitiesDoneResponse
  | 20 => some .SubscribeStatesRequest
  | 21 => some .BinarySensorStateResponse
  | 22 => some .CoverStateResponse
  | 23 => some .FanStateResponse
  | 24 => some .LightStateResponse
  | 25 => some .SensorStateResponse
  | 26 => some .SwitchStateResponse
  | 27 => some .TextSensorStateResponse
  | 28 => some .SubscribeLogsRequest
  | 29 => some .SubscribeLogsResponse
  | 30 => some .CoverCommandRequest
  | 31 => some .FanCommandRequest
  | 32 => some .LightCommandRequest
  | 33 => some .SwitchCommandRequest
  | 34 => some .SubscribeHomeassistantServicesRequest
  | 35 => some .HomeassistantServiceResponse
  | 36 => some .GetTimeRequest
  | 37 => some .GetTimeResponse
  | 38 => some .SubscribeHomeAssistantStatesRequest
  | 39 => some .SubscribeHomeAssistantStateResponse
  | 40 => some .HomeAssistantStateResponse
  | 41 => some .ListEntitiesServicesResponse
  | 42 => some .ExecuteServiceRequest
  | 43 => some .ListEntitiesCameraResponse
  | 44 => some .CameraImageResponse
  | 45 => some .CameraImageRequest
  | 46 => some .ListEntitiesClimateResponse
  | 47 => some .ClimateStateResponse
  | 48 => some .ClimateCommandRequest
  | 49 => some .ListEntitiesNumberResponse
  | 50 => some .NumberStateResponse
  | 51 => some .NumberCommandRequest
  | 52 => some .ListEntitiesSelectResponse
  | 53 => some .SelectStateResponse
  | 54 => some .SelectCommandRequest
  | 55 => some .ListEntitiesSirenResponse
  | 56 => some .SirenStateResponse
  | 57 => some .SirenCommandRequest
  | 58 => some .ListEntitiesLockResponse
  | 59 => some .LockStateResponse
  | 60 => some .LockCommandRequest
  | 61 => some .ListEntitiesButtonResponse
  | 62 => some .ButtonCommandRequest
  | 63 => some .ListEntitiesMediaPlayerResponse
  | 64 => some .MediaPlayerStateResponse
  | 65 => some .MediaPlayerCommandRequest
  | 66 => some .SubscribeBluetoothLEAdvertisementsRequest
  | 67 => some .BluetoothLEAdvertisementResponse
  | 68 => some .BluetoothDeviceRequest
  | 69 => some .BluetoothDeviceConnectionResponse
  | 70 => some .BluetoothGATTGetServicesRequest
  | 71 => some .BluetoothGATTGetServicesResponse
  | 72 => some .BluetoothGATTGetServicesDoneResponse
  | 73 => some .BluetoothGATTReadRequest
  | 74 => some .BluetoothGATTReadResponse
  | 75 => some .BluetoothGATTWriteRequest
  | 76 => some .BluetoothGATTReadDescriptorRequest
  | 77 => some .BluetoothGATTWriteDescriptorRequest
  | 78 => some .BluetoothGATTNotifyRequest
  | 79 => some .BluetoothGATTNotifyDataResponse
  | 80 => some .SubscribeBluetoothConnectionsFreeRequest
  | 81 => some .BluetoothConnectionsFreeResponse
  | 82 => some .BluetoothGATTErrorResponse
  | 83 => some .BluetoothGATTWriteResponse
  | 84 => some .BluetoothGATTNotifyResponse
  | 85 => some .BluetoothDevicePairingResponse
  | 86 => some .BluetoothDeviceUnpairingResponse
  | 87 => some .UnsubscribeBluetoothLEAdvertisementsRequest
  | 88 => some .BluetoothDeviceClearCacheResponse
  | 89 => some .SubscribeVoiceAssistantRequest
  | 90 => some .VoiceAssistantRequest
  | 91 => some .VoiceAssistantResponse
  | 92 => some .VoiceAssistantEventResponse
  | 93 => some .BluetoothLERawAdvertisementsResponse
  | 94 => some .ListEntitiesAlarmControlPanelResponse
  | 95 => some .AlarmControlPanelStateResponse
  | 96 => some .AlarmControlPanelCommandRequest
  | 97 => some .ListEntitiesTextResponse
  | 98 => some .TextStateResponse
  | 99 => some .TextCommandRequest
  | 100 => some .ListEntitiesDateResponse
  | 101 => some .DateStateResponse
  | 102 => some .DateCommandRequest
  | 103 => some .ListEntitiesTimeResponse
  | 104 => some .TimeStateResponse
  | 105 => some .TimeCommandRequest
  | 106 => some .VoiceAssistantAudio
  | 107 => some .ListEntitiesEventResponse
  | 108 => some .EventResponse
  | 109 => some .ListEntitiesValveResponse
  | 110 => some .ValveStateResponse
  | 111 => some .ValveCommandRequest
  | 112 => some .ListEntitiesDateTimeResponse
  | 113 => some .DateTimeStateResponse
  | 114 => some .DateTimeCommandRequest
  | 115 => some .VoiceAssistantTimerEventResponse
  | 116 => some .ListEntitiesUpdateResponse
  | 117 => some .UpdateStateResponse
  | 118 => some .UpdateCommandRequest
  | 119 => some .VoiceAssistantAnnounceRequest
  | 120 => some .VoiceAssistantAnnounceFinished
  | 121 => some .VoiceAssistantConfigurationRequest
  | 122 => some .VoiceAssistantConfigurationResponse
  | 123 => some .VoiceAssistantSetConfiguration
  | _ => none


theorem MessageType.ofNum_toNat (t : MessageType) : MessageType.ofNum t.toNat = some t := by
  cases t <;> rfl

theorem MessageType.toNat_le (t : MessageType) : t.toNat ≤ 123 := by
  cases t <;> simp [MessageType.toNat]

/-- Embedding of `ProtocolError` (protocol.rs:18-40); each payload is the
formatted message string (for the wrapped decode/encode/io errors, their
display string). -/
inductive ProtocolError
  | ConnectionError (msg : String)
  | ProtocolError (msg : String)
  | CommunicationError (msg : String)
  | DecodeError (msg : String)
  | EncodeError (msg : String)
  | IoError (msg : String)
  | InvalidResponse (msg : String)
deriving DecidableEq, Repr

/-- Embedding of `ESPHomeFrame` (protocol.rs:143-146): a message type plus
payload bytes. -/
structure ESPHomeFrame where
  msg_type : MessageType
  data : List Nat
deriving DecidableEq, Repr

/-- Embedding of `ESPHomeCodec::encode` (protocol.rs:344-369): zero-byte
preamble, payload length as varint, message type as varint, then the
payload bytes.  `data.len() as u64` is a lossless cast, so the length is
passed unreduced. -/
def ESPHomeCodec.encode (item : ESPHomeFrame) : List Nat :=
  0 :: (encode_varuint item.data.length ++ (encode_varuint item.msg_type.toNat ++ item.data))

/-- Embedding of `ESPHomeCodec::decode` (protocol.rs:155-341).  Returns the
Rust `Result<Option<Item>>` together with the buffer as the call leaves it:
`Ok None` restores the original buffer (incomplete frame), a non-zero
preamble consumes exactly one byte, an unknown message type leaves the
buffer advanced past the preamble and both varints, and a decoded frame
consumes exactly the frame. -/
def ESPHomeCodec.decode (src : List Nat) :
    Except ProtocolError (Option ESPHomeFrame) × List Nat :=
  match src with
  | [] => (.ok none, src)
  | b :: rest =>
    if b = 0 then
      match decode_varuint rest with
      | none => (.ok none, src)
      | some (size, s2) =>
        match decode_varuint s2 with
        | none => (.ok none, src)
        | some (tval, s3) =>
          match MessageType.ofNum tval with
          | none => (.error (.InvalidResponse ("Unknown message type: " ++ toString tval)), s3)
          | some msg_type =>
            if s3.length < size then (.ok none, src)
            else (.ok (some { msg_type, data := s3.take size }), s3.drop size)
    else (.error (.ProtocolError "Invalid preamble"), rest)

/-- Claim C1: frame codec round-trip.  For every known message type and
payload byte string (length below `2 ^ 64`), encoding the frame with the
zero preamble, varint payload length, varint message type and payload, and
then running the frame decoder on the resulting buffer, yields exactly the
frame back with the buffer fully consumed. -/
theorem frame_roundtrip (t : MessageType) (data : List Nat)
    (hlen : data.length < 2 ^ 64) (hbytes : ∀ b ∈ data, b < 256) :
    ESPHomeCodec.decode (ESPHomeCodec.encode { msg_type := t, data })
      = (.ok (some { msg_type := t, data }), []) := by
  have ht : t.toNat < 2 ^ 64 := by
    have := t.toNat_le
    omega
  have h1 := decode_varuint_encode data.length (encode_varuint t.toNat ++ data) hlen
  have h2 := decode_varuint_encode t.toNat data ht
  simp [ESPHomeCodec.encode, ESPHomeCodec.decode, h1, h2, MessageType.ofNum_toNat]

/-- Claim C1 witness: the round-trip at a concrete frame, message type 29
with a four-byte payload. -/
theorem frame_roundtrip_witness :
    ESPHomeCodec.decode (ESPHomeCodec.encode
        { msg_type := .SubscribeLogsResponse, data := [222, 173, 190, 239] })
      = (.ok (some { msg_type := .SubscribeLogsResponse, data := [222, 173, 190, 239] }), []) :=
  frame_roundtrip .SubscribeLogsResponse [222, 173, 190, 239] (by decide) (by decide)

/-- Ten continuation bytes in a row drive `shift` past 63, and the varint
decoder gives up with `none` — the same answer as for a truncated buffer. -/
theorem decode_varuint_aux_cont_none (k : Nat) :
    ∀ (l : List Nat) (value shift : Nat), 1 ≤ k → shift + 7 * k > 63 →
      k ≤ l.length → (∀ b ∈ l.take k, b &&& 128 ≠ 0) →
      decode_varuint_aux l value shift = none := by
  induction k with
  | zero =>
    intro l value shift h1 _ _ _
    omega
  | succ k ih =>
    intro l value shift _ hshift hlen hcont
    match l with
    | [] => simp at hlen
    | b :: rest =>
      have hb : b &&& 128 ≠ 0 := by
        apply hcont
        simp [List.take]
      simp only [decode_varuint_aux]
      rw [if_neg hb]
      by_cases hs : shift + 7 > 63
      · rw [if_pos hs]
      · rw [if_neg hs]
        rcases Nat.eq_zero_or_pos k with rfl | hk
        · exact absurd hshift (by omega)
        · refine ih rest _ (shift + 7) hk (by omega) ?_ ?_
          · simpa using hlen
          · intro b2 hb2
            apply hcont
            simp only [List.take]
            exact List.mem_cons_of_mem b hb2

/-- Claim C6 (amended): a varint that would exceed 63 bits of shift — any
buffer whose first ten bytes all carry the continuation bit — makes
`decode_varuint` return `None`, and the frame decoder treats that exactly
like an incomplete frame: it reports no error and consumes nothing.  No
`VarintTooLong` error is reported (none exists in `ProtocolError`). -/
theorem varint_too_long_incomplete (l : List Nat) (hlen : 10 ≤ l.length)
    (hcont : ∀ b ∈ l.take 10, b &&& 128 ≠ 0) :
    decode_varuint l = none ∧
      ESPHomeCodec.decode (0 :: l) = (.ok none, 0 :: l) := by
  have hnone : decode_varuint l = none :=
    decode_varuint_aux_cont_none 10 l 0 0 (by omega) (by omega) hlen hcont
  refine ⟨hnone, ?_⟩
  simp [ESPHomeCodec.decode, hnone]

/-- Claim C6 witness: the amended statement at ten `0x80` bytes. -/
theorem varint_too_long_witness :
    decode_varuint (List.replicate 10 128) = none ∧
      ESPHomeCodec.decode (0 :: List.replicate 10 128)
        = (.ok none, 0 :: List.replicate 10 128) :=
  varint_too_long_incomplete (List.replicate 10 128) (by decide) (by decide)

/-- Claim C6 counterexample: a frame whose length varint is ten `0xFF`
bytes (a 10-byte varint with the continuation bit still set on the tenth
byte).  The decoder returns `Ok(None)` — the incomplete-frame result,
consuming nothing and waiting for more bytes — instead of rejecting the
input with a `VarintTooLong` error as the claim states. -/
theorem varint_too_long_cex :
    decode_varuint (List.replicate 10 255) = none ∧
      ESPHomeCodec.decode (0 :: List.replicate 10 255)
        = (.ok none, 0 :: List.replicate 10 255) :=
  ⟨rfl, rfl⟩

/-- Claim C7 (amended): a complete, well-framed frame whose message-type
number is unknown makes the decoder report the unknown-type error
(`InvalidResponse` with the offending number) after consuming the preamble
and the two varints only — the `payload_len` payload bytes are left in the
buffer, so decoding resumes inside the stale frame rather than at the next
frame boundary. -/
theorem unknown_msg_type_leaves_payload (tval : Nat) (data : List Nat)
    (hunk : MessageType.ofNum tval = none) (htv : tval < 2 ^ 64)
    (hlen : data.length < 2 ^ 64) :
    ESPHomeCodec.decode (0 :: (encode_varuint data.length ++ (encode_varuint tval ++ data)))
      = (.error (.InvalidResponse ("Unknown message type: " ++ toString tval)), data) := by
  have h1 := decode_varuint_encode data.length (encode_varuint tval ++ data) hlen
  have h2 := decode_varuint_encode tval data htv
  simp [ESPHomeCodec.decode, h1, h2, hunk]

/-- Claim C7 witness: unknown message type 124 with a two-byte payload. -/
theorem unknown_msg_type_witness :
    ESPHomeCodec.decode (0 :: (encode_varuint (List.length [170, 187]) ++
        (encode_varuint 124 ++ [170, 187])))
      = (.error (.InvalidResponse ("Unknown message type: " ++ toString 124)), [170, 187]) :=
  unknown_msg_type_leaves_payload 124 [170, 187] (by decide) (by decide) (by decide)

/-- Claim C7 counterexample: decoding the complete frame
`[0x00, 0x02, 0x7C, 0xAA, 0xBB]` (payload length 2, unknown message type
124) reports the unknown-type error but leaves the two payload bytes in
the buffer — the frame is not consumed in its entirety, so decoding does
not continue at the next frame boundary. -/
theorem unknown_msg_type_cex :
    ESPHomeCodec.decode [0, 2, 124, 170, 187]
      = (.error (.InvalidResponse "Unknown message type: 124"), [170, 187]) ∧
      ([170, 187] : List Nat) ≠ [] :=
  ⟨rfl, by decide⟩



/-- Embedding of the expected-response table inside the connection task of
`ESPHomeProtocolClient::ensure_connected` (protocol.rs:467-479): only five
request types have a mapping; every other message type falls back to
expecting the request type itself back. -/
def expected_response : MessageType → MessageType
  | .HelloRequest => .HelloResponse
  | .ConnectRequest => .ConnectResponse
  | .DisconnectRequest => .DisconnectResponse
  | .PingRequest => .PingResponse
  | .DeviceInfoRequest => .DeviceInfoResponse
  | t => t

/-- The `pending_responses` table (`HashMap<MessageType, MessageResponseSender>`,
protocol.rs:419): one-shot reply slots keyed by message type.  Slots are
identified by an id; the map is an association list whose keys stay
distinct, as in the hash map. -/
abbrev PendingMap := List (MessageType × Nat)

def PendingMap.lookup (m : PendingMap) (k : MessageType) : Option Nat :=
  (List.find? (fun p => p.1 = k) m).map (fun p => p.2)

/-- `HashMap::insert` semantics: the new binding replaces any binding of the
same key; the value previously stored under the key is returned (the Rust
code discards it, which drops the one-shot sender). -/
def PendingMap.insert (m : PendingMap) (k : MessageType) (v : Nat) :
    PendingMap × Option Nat :=
  ((k, v) :: List.eraseP (fun p => p.1 = k) m, m.lookup k)

def PendingMap.keysNodup (m : PendingMap) : Prop :=
  (m.map (fun p => p.1)).Nodup

theorem keys_eraseP_nodup (m : PendingMap) (q : MessageType × Nat → Bool)
    (h : PendingMap.keysNodup m) : PendingMap.keysNodup (List.eraseP q m) :=
  List.Nodup.sublist (List.Sublist.map _ (List.eraseP_sublist m)) h

theorem keys_eraseP_not_mem (m : PendingMap) (k : MessageType)
    (h : PendingMap.keysNodup m) :
    k ∉ (List.eraseP (fun p => p.1 = k) m).map (fun p => p.1) := by
  induction m with
  | nil => simp
  | cons p m ih =>
    simp only [PendingMap.keysNodup, List.map_cons, List.nodup_cons] at h
    by_cases hp : p.1 = k
    · rw [List.eraseP_cons_of_pos (by simp [hp])]
      rw [← hp]
      exact h.1
    · rw [List.eraseP_cons_of_neg (by simp [hp])]
      simp only [List.map_cons, List.mem_cons]
      rintro (h1 | h1)
      · exact hp h1.symm
      · exact ih h.2 h1

/-- Registration step performed by the connection task when it dequeues an
outgoing `(frame, Some(sender))` pair (protocol.rs:465-483):
`responses.insert(expected_response, sender)`, overwriting and dropping any
earlier slot stored under the same expected response type. -/
def registerResponseSlot (pending : PendingMap) (reqType : MessageType) (slot : Nat) :
    PendingMap × Option Nat :=
  pending.insert (expected_response reqType) slot

/-- What the caller of `send_and_receive` observes of its one-shot slot:
the connection task fulfilled it with a result, the sender was dropped
without a send (e.g. overwritten in `pending_responses`), or nothing ever
happens to it. -/
inductive AwaitFate
  | resolved (r : Except ProtocolError (List Nat))
  | senderDropped
  | never
deriving Repr

/-- The await tail of `send_and_receive` (protocol.rs:591-595):
`response_rx.await` mapped to `CommunicationError("Failed to receive
response")` when the sender was dropped, then the inner result is
propagated.  There is no timer: if the slot is never touched, the await
never finishes, which we model as `none`. -/
def awaitResult : AwaitFate → Option (Except ProtocolError (List Nat))
  | .resolved r => some r
  | .senderDropped => some (.error (.CommunicationError "Failed to receive response"))
  | .never => none

/-- Caller-visible state of `ESPHomeProtocolClient` for `send_and_receive`:
the pending-responses table and whether `tx` is present. -/
structure ClientState where
  pending : PendingMap
  hasTx : Bool

/-- Embedding of `ESPHomeProtocolClient::send_and_receive`
(protocol.rs:559-602) combined with the registration the connection task
performs on dequeue: encode the request, create a one-shot channel, enqueue
the frame with the sender (the task inserts the sender under the expected
response type), then await the slot — with no timeout of any kind.  The
second component is `none` when the call never returns. -/
def send_and_receive (st : ClientState) (reqType : MessageType) (slot : Nat)
    (fate : AwaitFate) : ClientState × Option (Except ProtocolError (List Nat)) :=
  if st.hasTx then
    ({ st with pending := (registerResponseSlot st.pending reqType slot).1 },
      awaitResult fate)
  else
    (st, some (.error (.ConnectionError "Not connected")))

/-- Claim C4 counterexample: a connected client whose request never gets a
response.  `send_and_receive` yields no result at all (the await suspends
forever — second component `none`) and the pending slot is still
registered, instead of the claimed behaviour of removing the slot after a
5-second timeout and returning a `Timeout` error.  `ProtocolError` has no
timeout variant for it to return. -/
theorem send_and_receive_no_timeout_cex :
    send_and_receive { pending := [], hasTx := true } .PingRequest 0 .never
      = ({ pending := [(.PingResponse, 0)], hasTx := true }, none) := by
  rfl

/-- Claim C4 (amended): `send_and_receive` takes no timeout.  It encodes
the request, enqueues the frame with a fresh one-shot sender (which the
connection task registers under the expected response type), and awaits
the slot indefinitely: a fulfilled slot yields its result, a dropped
sender yields `CommunicationError("Failed to receive response")`, and if
nothing ever reaches the slot the call never completes and the slot stays
registered. -/
theorem send_and_receive_awaits_slot (st : ClientState) (reqType : MessageType)
    (slot : Nat) (fate : AwaitFate) (htx : st.hasTx = true) :
    send_and_receive st reqType slot fate
      = ({ st with pending := (registerResponseSlot st.pending reqType slot).1 },
          awaitResult fate) ∧
      awaitResult .never = none ∧
      awaitResult .senderDropped
        = some (.error (.CommunicationError "Failed to receive response")) := by
  refine ⟨?_, rfl, rfl⟩
  simp [send_and_receive, htx]

/-- Claim C4 witness: the amended statement at a concrete connected
client. -/
theorem send_and_receive_awaits_slot_witness :
    (send_and_receive { pending := [], hasTx := true } .HelloRequest 7 .senderDropped
      = ({ pending := [(.HelloResponse, 7)], hasTx := true },
          some (.error (.CommunicationError "Failed to receive response")))) ∧
      awaitResult .never = none := by
  have h := send_and_receive_awaits_slot { pending := [], hasTx := true }
    .HelloRequest 7 .senderDropped rfl
  exact ⟨h.1, h.2.1⟩

/-- Claim C9: the pending-responses table keyed by expected response type
holds at most one slot per type (its keys stay distinct).  Registering a
second request with the same expected response type overwrites the table
entry and returns the earlier sender, which the Rust code discards —
dropping it — so the earlier caller's await ends with
`CommunicationError("Failed to receive response")` and never sees the
response. -/
theorem pending_slot_overwrite (pending : PendingMap) (t : MessageType)
    (s1 s2 : Nat) (hnd : pending.keysNodup) :
    ((registerResponseSlot (registerResponseSlot pending t s1).1 t s2).1.lookup
        (expected_response t) = some s2) ∧
      (registerResponseSlot (registerResponseSlot pending t s1).1 t s2).2 = some s1 ∧
      (registerResponseSlot (registerResponseSlot pending t s1).1 t s2).1.keysNodup ∧
      awaitResult .senderDropped
        = some (.error (.CommunicationError "Failed to receive response")) := by
  refine ⟨?_, ?_, ?_, rfl⟩
  · simp [registerResponseSlot, PendingMap.insert, PendingMap.lookup]
  · simp [registerResponseSlot, PendingMap.insert, PendingMap.lookup]
  · have h1 : PendingMap.keysNodup (registerResponseSlot pending t s1).1 := by
      simp only [registerResponseSlot, PendingMap.insert, PendingMap.keysNodup,
        List.map_cons, List.nodup_cons]
      exact ⟨keys_eraseP_not_mem pending _ hnd, keys_eraseP_nodup pending _ hnd⟩
    simp only [registerResponseSlot, PendingMap.insert, PendingMap.keysNodup,
      List.map_cons, List.nodup_cons]
    exact ⟨keys_eraseP_not_mem _ _ h1, keys_eraseP_nodup _ _ h1⟩

/-- Claim C9 witness: overwriting a pending `ConnectResponse` slot on an
initially empty table. -/
theorem pending_slot_overwrite_witness :
    PendingMap.keysNodup [] ∧
      (PendingMap.lookup (registerResponseSlot (registerResponseSlot [] .ConnectRequest 4).1
          .ConnectRequest 9).1 (expected_response .ConnectRequest) = some 9) ∧
      (registerResponseSlot (registerResponseSlot [] .ConnectRequest 4).1
          .ConnectRequest 9).2 = some 4 := by
  have h := pending_slot_overwrite [] .ConnectRequest 4 9 (by exact List.nodup_nil)
  exact ⟨by exact List.nodup_nil, h.1, h.2.1⟩

end Esphome

namespace SystemSvc

/-- Outcome of `timeout(SHUTDOWN_TIMEOUT, handle).await` in
`ServiceHandle::stop` (system_service.rs:123-136): the task joined
gracefully, it had panicked, or the 3-second timeout elapsed first. -/
inductive TaskOutcome
  | graceful
  | panicked
  | timedOut
deriving DecidableEq, Repr

/-- `SHUTDOWN_TIMEOUT` (system_service.rs:109), in seconds. -/
def SHUTDOWN_TIMEOUT_SECS : Nat := 3

/-- State of a `ServiceHandle` (system_service.rs:58-63): the `running`
and `stopped` atomics and whether a join handle is currently stored. -/
structure HandleState where
  running : Bool
  stopped : Bool
  hasTask : Bool
deriving DecidableEq, Repr

/-- Observable actions of `ServiceHandle::start` (system_service.rs:83-106). -/
inductive StartAction
  | initCalled
  | spawnTask
deriving DecidableEq, Repr

/-- Observable actions of `ServiceHandle::stop` (system_service.rs:108-146).
`abortTask` (a `JoinHandle::abort` call) is listed so its absence can be
stated; the embedding of the source never emits it. -/
inductive StopAction
  | signalCancel
  | awaitTaskWithTimeout
  | warnPanicked
  | warnTimedOutForcingAbort
  | abortTask
  | runCleanup
  | logCleanupError
deriving DecidableEq, Repr

/-- Embedding of `ServiceHandle::start` (system_service.rs:83-106): when
`running` or `stopped` is already set, return `Ok` at once without calling
`init()` or spawning anything; otherwise call `init()` (propagating its
error before any state change), set `running`, and spawn the run task,
storing its join handle. -/
def start (st : HandleState) (initRes : Except String Unit) :
    HandleState × List StartAction × Except String Unit :=
  if st.running || st.stopped then (st, [], .ok ())
  else
    match initRes with
    | .error e => (st, [.initCalled], .error e)
    | .ok _ =>
      ({ st with running := true, hasTask := true }, [.initCalled, .spawnTask], .ok ())

/-- Embedding of `ServiceHandle::stop` (system_service.rs:108-146): store
`running := false` and `stopped := true`, notify the cancel waiters, take
the join handle (when present) and await it under the 3-second timeout —
logging a warning on panic, or the "forcing abort" warning on timeout,
after which the handle is merely dropped (the task is detached; no
`abort()` is called) — then always run `cleanup()`, logging its error and
returning it. -/
def stop (st : HandleState) (outcome : TaskOutcome) (cleanupRes : Except String Unit) :
    HandleState × List StopAction × Except String Unit :=
  let st1 : HandleState := { st with running := false, stopped := true }
  let step :=
    if st1.hasTask then
      ({ st1 with hasTask := false },
        [StopAction.signalCancel, StopAction.awaitTaskWithTimeout] ++
          (match outcome with
            | .graceful => []
            | .panicked => [StopAction.warnPanicked]
            | .timedOut => [StopAction.warnTimedOutForcingAbort]))
    else (st1, [StopAction.signalCancel])
  match cleanupRes with
  | .ok _ => (step.1, step.2 ++ [StopAction.runCleanup], .ok ())
  | .error e =>
    (step.1, step.2 ++ [StopAction.runCleanup, StopAction.logCleanupError],
      .error ("Cleanup failed: " ++ e))

/-- Claim C5: evaluation at the failing input — a running service whose
`run()` ignores cancel, so the 3-second deadline expires.  `stop` emits
the "forcing abort" warning and still runs `cleanup()` (whose error is
logged and returned, last conjunct), but emits no `abortTask`: the join
handle is only dropped, detaching the task, contrary to the claim and to
the warning's own wording. -/
theorem stop_timeout_never_aborts :
    (stop { running := true, stopped := false, hasTask := true } .timedOut (.ok ())
      = ({ running := false, stopped := true, hasTask := false },
          [.signalCancel, .awaitTaskWithTimeout, .warnTimedOutForcingAbort, .runCleanup],
          .ok ())) ∧
      StopAction.abortTask ∉
        (stop { running := true, stopped := false, hasTask := true }
          .timedOut (.ok ())).2.1 ∧
      (∀ st outcome, (stop st outcome (.error "boom")).2.2
        = .error ("Cleanup failed: " ++ "boom")) := by
  refine ⟨rfl, by decide, ?_⟩
  intro st outcome
  rcases st with ⟨r, s, ht⟩
  cases ht <;> rfl

/-- Operations that can be applied to a `ServiceHandle` after the fact,
together with their environment (the results of `init()`/`cleanup()` and
the join outcome). -/
inductive HandleOp
  | opStart (initRes : Except String Unit)
  | opStop (outcome : TaskOutcome) (cleanupRes : Except String Unit)

def applyOp (st : HandleState) : HandleOp → HandleState
  | .opStart initRes => (start st initRes).1
  | .opStop outcome cleanupRes => (stop st outcome cleanupRes).1

def applyOps (st : HandleState) : List HandleOp → HandleState
  | [] => st
  | op :: ops => applyOps (applyOp st op) ops

theorem start_preserves_stopped (st : HandleState) (i : Except String Unit) :
    ((start st i).1).stopped = st.stopped := by
  unfold start
  split
  · rfl
  · cases i <;> rfl

theorem stop_sets_stopped (st : HandleState) (o : TaskOutcome) (c : Except String Unit) :
    ((stop st o c).1).stopped = true := by
  rcases st with ⟨r, s, ht⟩
  cases ht <;> cases c <;> rfl

theorem applyOps_preserves_stopped (ops : List HandleOp) :
    ∀ st : HandleState, st.stopped = true → (applyOps st ops).stopped = true := by
  induction ops with
  | nil =>
    intro st h
    exact h
  | cons op ops ih =>
    intro st h
    apply ih
    cases op with
    | opStart i =>
      show ((start st i).1).stopped = true
      rw [start_preserves_stopped]
      exact h
    | opStop o c => exact stop_sets_stopped st o c

/-- Claim C10: once `stop()` has run on a handle, the `stopped` flag is
set and no later operation (any sequence of starts and stops) clears it;
consequently every subsequent `start` on that handle returns `Ok`
immediately with `init()` not invoked and no run task spawned — a stopped
service can never be restarted through the same handle. -/
theorem stopped_is_permanent (st : HandleState) (o : TaskOutcome)
    (c : Except String Unit) (ops : List HandleOp) (i : Except String Unit) :
    ((applyOps (stop st o c).1 ops).stopped = true) ∧
      start (applyOps (stop st o c).1 ops) i
        = (applyOps (stop st o c).1 ops, [], .ok ()) := by
  have hstopped := applyOps_preserves_stopped ops _ (stop_sets_stopped st o c)
  refine ⟨hstopped, ?_⟩
  simp [start, hstopped]

end SystemSvc

namespace Types

/-- Embedding of `BusEvent` (crates/types/src/events.rs): the four bus
event variants.  Metadata maps are association lists, the timestamp is
abstract, the reading value is `Float` (`f64`). -/
inductive BusEvent
  | DeviceDiscovered (id : String) (device_type : String)
      (metadata : List (String × String))
  | DeviceUpdated (id : String) (metadata : List (String × String))
  | DeviceRemoved (id : String)
  | SensorReading (ts : Nat) (device_id : String) (sensor_id : String)
      (value : Float) (unit : Option String)

/-- Embedding of `DeviceKind` (crates/types/src/devices.rs). -/
inductive DeviceKind
  | Light
  | Switch
  | Sensor
  | Media
  | Speaker
  | Display
  | Climate
  | Camera
  | Security
  | Other
deriving DecidableEq, Repr

end Types

namespace Registry

/-- Registry device entry.  Modelled from the spec: the `DeviceRegistry`
module (`crates/registry/src/registry.rs`) is declared in
`crates/registry/src/lib.rs` but its file is absent from `src/`; per spec
§4.9 the registry is a map from id to Device, and the fields follow the
`Device` struct of `crates/types/src/devices.rs` (capabilities reduced to
opaque labels). -/
structure Device where
  id : String
  kind : Types.DeviceKind
  capabilities : List String
deriving Repr

/-- The registry map.  Modelled from the spec (§4.9, `map<id, Device>`):
`register_device` inserts keyed by the device id (replacing any previous
entry), `unregister_device` removes the entry, `get_device` returns a
copy. -/
abbrev DeviceMap := List (String × Device)

def DeviceMap.get_device (m : DeviceMap) (id : String) : Option Device :=
  (List.find? (fun p => p.1 = id) m).map (fun p => p.2)

def DeviceMap.register_device (m : DeviceMap) (d : Device) : DeviceMap :=
  (d.id, d) :: List.eraseP (fun p => p.1 = d.id) m

def DeviceMap.unregister_device (m : DeviceMap) (id : String) : DeviceMap :=
  List.eraseP (fun p => p.1 = id) m

/-- Embedding of the bus-event handling in `RegistryService::run`
(crates/registry/src/lib.rs:42-105).  The `DeviceDiscovered` arm logs the
id and does nothing else — its entire conversion/registration body is
commented out in the source.  `DeviceUpdated` re-registers the unchanged
device when it exists (the mutating lines are commented out),
`DeviceRemoved` unregisters.  The source match has no `SensorReading`
arm; it is a no-op here. -/
def handle_event (reg : DeviceMap) : Types.BusEvent → DeviceMap
  | .DeviceDiscovered _ _ _ => reg
  | .DeviceUpdated id _ =>
    match DeviceMap.get_device reg id with
    | some device => DeviceMap.register_device reg device
    | none => reg
  | .DeviceRemoved id => DeviceMap.unregister_device reg id
  | .SensorReading _ _ _ _ _ => reg

/-- Claim C2 counterexample: a `DeviceDiscovered` event for an id absent
from the registry leaves the registry empty — no device is inserted under
any kind, because the registration body of that match arm is commented
out in the source. -/
theorem discovered_not_inserted_cex :
    handle_event []
        (.DeviceDiscovered "wifi_lamp" "light" [("friendly_name", "Lamp")]) = [] ∧
      DeviceMap.get_device
        (handle_event []
          (.DeviceDiscovered "wifi_lamp" "light" [("friendly_name", "Lamp")]))
        "wifi_lamp" = none :=
  ⟨rfl, rfl⟩

/-- Claim C2 (amended): every `DeviceDiscovered` bus event consumed by the
registry service is logged but leaves the registry unchanged — no device
is inserted for a new id, and nothing is refreshed or merged for an
existing one — because the registration body of that arm is commented out
in the source. -/
theorem discovered_leaves_registry_unchanged (reg : DeviceMap)
    (id device_type : String) (metadata : List (String × String)) :
    handle_event reg (.DeviceDiscovered id device_type metadata) = reg :=
  rfl

end Registry

namespace Mdns

/-- Embedding of `mdns_sd::ServiceInfo` as read by the handler: fullname,
service type, addresses and TXT properties. -/
structure ServiceInfo where
  fullname : String
  ty : String
  addresses : List String
  txt : List (String × String)

/-- Embedding of `mdns_sd::ServiceEvent` as consumed by
`MdnsProtocol::handle_mdns_event` (mdns.rs:192-253). -/
inductive ServiceEvent
  | ServiceResolved (info : ServiceInfo)
  | ServiceRemoved (ty : String) (fullname : String)
  | ServiceFound (ty : String) (fullname : String)
  | SearchStarted (ty : String)
  | SearchStopped (ty : String)

/-- Embedding of `MdnsProtocol::handle_mdns_event` (mdns.rs:192-253) as
the list of bus events it publishes.  `ServiceResolved` publishes
`DeviceDiscovered` with id `"wifi_" ++ fullname`, the info's type and its
TXT records; `ServiceFound` publishes `DeviceDiscovered` with the browse
type and empty metadata; `ServiceRemoved` logs and computes
`device_id = "wifi_" ++ fullname` but publishes nothing — the send in
that arm is commented out — and the search events are no-ops. -/
def handle_mdns_event (event : ServiceEvent) (service_type : String) :
    List Types.BusEvent :=
  match event with
  | .ServiceResolved info =>
    [.DeviceDiscovered ("wifi_" ++ info.fullname) info.ty info.txt]
  | .ServiceRemoved _ _ => []
  | .ServiceFound _ fullname =>
    [.DeviceDiscovered ("wifi_" ++ fullname) service_type []]
  | .SearchStarted _ => []
  | .SearchStopped _ => []

/-- Claim C3 counterexample: a concrete `ServiceRemoved` event publishes
nothing at all — in particular not the claimed `DeviceRemoved` with id
`"wifi_" ++ fullname`. -/
theorem service_removed_publishes_nothing_cex :
    handle_mdns_event
        (.ServiceRemoved "_airplay._tcp.local." "foo._airplay._tcp.local.")
        "_airplay._tcp.local." = [] ∧
      ([] : List Types.BusEvent)
        ≠ [.DeviceRemoved "wifi_foo._airplay._tcp.local."] :=
  ⟨rfl, by simp⟩

/-- Claim C3 (amended): for every mDNS `ServiceRemoved(_, fullname)` event
received by the per-type handler, the handler only logs the removal and
computes the would-be id `"wifi_" ++ fullname`; no `DeviceRemoved` bus
event (nor any other event) is published, the send being commented out. -/
theorem service_removed_publishes_nothing (ty fullname service_type : String) :
    handle_mdns_event (.ServiceRemoved ty fullname) service_type = [] :=
  rfl

end Mdns

namespace Core

/-- The services owned by `System` (crates/core/src/main.rs:18-26). -/
inductive SystemService
  | db
  | eventBus
  | registry
  | discovery
  | integration
  | api
  | timeseries
deriving DecidableEq, Repr

/-- Embedding of the call order in `System::start` (main.rs:29-55):
database, event bus, registry, discovery, integration, API, and the
timeseries service last. -/
def startOrder : List SystemService :=
  [.db, .eventBus, .registry, .discovery, .integration, .api, .timeseries]

/-- Embedding of the call order in `System::stop` (main.rs:57-81): API,
integration, discovery, registry, event bus, database, and the timeseries
service last again. -/
def stopOrder : List SystemService :=
  [.api, .integration, .discovery, .registry, .eventBus, .db, .timeseries]

/-- Claim C8 counterexample: the supervisor does not start the services in
the claimed order persistent-store → time-series ingest → event-bus → …
(the timeseries service is started last, not second), and the stop order
is not the exact reverse of the start order (timeseries is stopped last
as well, not first). -/
theorem order_cex :
    startOrder
        ≠ [.db, .timeseries, .eventBus, .registry, .discovery, .integration, .api] ∧
      stopOrder ≠ startOrder.reverse := by
  decide

/-- Claim C8 (amended): the supervisor starts database → event-bus →
registry → discovery → integrations → API → timeseries and stops
API → integrations → discovery → registry → event-bus → database →
timeseries; the stop order is the reverse of the start order for every
service except the timeseries service, which is both started and stopped
last. -/
theorem order_amended :
    startOrder
        = [.db, .eventBus, .registry, .discovery, .integration, .api, .timeseries] ∧
      stopOrder
        = [.api, .integration, .discovery, .registry, .eventBus, .db, .timeseries] ∧
      stopOrder
        = (startOrder.filter (fun s => s ≠ .timeseries)).reverse ++ [.timeseries] := by
  decide

end Core
